import Mathlib

/-!
Shallow embedding of the `mclub` passwordless authentication service
(`src/services/auth.py`, `src/services/session.py`, `src/services/user.py`,
`src/repositories/session.py`, `src/repositories/user.py`,
`src/core/redis/redis_helper.py`, `src/api_v1/auth/utils.py`).

Modelling conventions:
* Time is a `Nat` counting seconds; every operation receives the current
  instant `now` explicitly (Python reads `datetime.now(timezone.utc)`).
* A JWT string is modelled by the inductive `Token`: `Token.signed claims key`
  stands for the compact serialization of `claims` signed with the key pair
  identified by the string `key` (PyJWT's serialization is deterministic, so
  string equality of real tokens coincides with equality of these values);
  `Token.garbage s` stands for any string that is not a token signed by a
  known key.  The asymmetric/shared-secret distinction of `JWTHandler`
  (private key, public key, algorithm) is collapsed into the single key
  identifier: decoding succeeds exactly when the token was signed with the
  decoder's key.
* The relational store (SQLAlchemy) is embedded as in-memory lists of rows;
  `select ... limit(1)` becomes `List.find?`.  Commit failures that the
  repositories catch and log are not modelled except where a claim depends
  on them.
* The ephemeral store (Redis) is embedded as association lists carrying an
  absolute expiry instant; a key is visible while `now < expiry`.  `SET`
  overwrites, which is modelled by prepending (lookup takes the first hit).
  The helper methods swallow store exceptions; the flag `RedisState.failing`
  makes every helper take its exception branch.
* Python exceptions are modelled by `Except` results; uncaught builtin
  errors (`TypeError`, `AttributeError`, `ValueError`) are extra error
  values, distinct from the API exception taxonomy of
  `src/api_v1/exceptions.py`.
-/

namespace MClub

/-- Defaults of `AuthJWTSettings` in `src/core/config.py` (flattened:
`settings.auth_jwt.x` is written `settings.x`). -/
structure AuthJWTSettings where
  access_token_expire_minutes : Nat
  refresh_token_expire_minutes : Nat
  verification_code_length : Nat
  verification_code_expiration_minutes : Nat
deriving DecidableEq

def settings : AuthJWTSettings :=
  { access_token_expire_minutes := 30
    refresh_token_expire_minutes := 3600
    verification_code_length := 6
    verification_code_expiration_minutes := 5 * 60 }

/-- `PayloadSchema` of `src/schemas/auth.py`: the claims the service itself
builds (pydantic drops the `iat`/`exp` keys of a decoded dict because they
are not fields of the schema). -/
structure PayloadSchema where
  sub : String
  jid : String
  role : String
  is_refresh : Bool
deriving DecidableEq

/-- The claim set actually carried by an encoded token: `PayloadSchema`
plus the `iat`/`exp` entries added by `JWTHandler.encode`. -/
structure TokenClaims where
  sub : String
  jid : String
  role : String
  is_refresh : Bool
  iat : Nat
  exp : Nat
deriving DecidableEq

/-- A JWT string, identified with its parsed content (see module header). -/
inductive Token where
  | signed (claims : TokenClaims) (key : String)
  | garbage (s : String)
deriving DecidableEq

/-- The PyJWT exceptions caught in `AuthService.get_payload_from_token`:
`ExpiredSignatureError` and its superclass `InvalidTokenError` (any other
decoding failure). -/
inductive JwtError where
  | expiredSignature
  | invalidTokenError
deriving DecidableEq

/-- `TokenPairSchema` of `src/schemas/auth.py`. -/
structure TokenPairSchema where
  access_token : Token
  refresh_token : Token
deriving DecidableEq

/-- The API exception taxonomy (`src/api_v1/exceptions.py`) plus the Python
builtin errors that escape uncaught from the embedded code paths. -/
inductive AuthError where
  | emailAlreadyExists
  | emailNotFound
  | verificationCodeIncorrect
  | userNotCreated
  | invalidToken
  | tokenExpired
  | typeError
  | attributeError
  | valueError
deriving DecidableEq

/-- One decimal digit of Python's `int()` grammar. -/
def charDigit (c : Char) : Option Nat :=
  if 48 ≤ c.toNat ∧ c.toNat ≤ 57 then some (c.toNat - 48) else none

def pyIntAux : Nat → List Char → Option Nat
  | acc, [] => some acc
  | acc, c :: cs =>
    match charDigit c with
    | some d => pyIntAux (acc * 10 + d) cs
    | none => none

/-- Python's `int(s)` on the strings this code feeds it: the subject field
is always `str(user.id)`, a plain decimal numeral.  `none` models the
`ValueError` raised on anything that is not one (sign/whitespace forms are
out of scope: the service never produces them). -/
def pyInt (s : String) : Option Nat :=
  match s.data with
  | [] => none
  | l => pyIntAux 0 l

namespace JWTHandler

/-- `JWTHandler.encode` (`src/api_v1/auth/utils.py`, lines 19-54): copies the
payload, adds `iat = now` and `exp = now + expire_token minutes`, and signs
with the handler's key.  `expire_token` is taken as an `int` of minutes (the
service always passes `settings.*_expire_minutes`). -/
def encode (key : String) (payload : PayloadSchema) (expire_minutes : Nat)
    (now : Nat) : Token :=
  Token.signed
    { sub := payload.sub
      jid := payload.jid
      role := payload.role
      is_refresh := payload.is_refresh
      iat := now
      exp := now + expire_minutes * 60 }
    key

/-- `JWTHandler.decode` (`src/api_v1/auth/utils.py`, lines 56-70): PyJWT
verifies the signature, then validates `exp` with zero leeway, raising
`ExpiredSignatureError` when `exp <= now` (the repository's own test
`test_decode_expired_token` exercises the `exp = now` case). -/
def decode (key : String) (tok : Token) (now : Nat) :
    Except JwtError TokenClaims :=
  match tok with
  | .garbage _ => .error .invalidTokenError
  | .signed claims k =>
    if k = key then
      if claims.exp ≤ now then .error .expiredSignature
      else .ok claims
    else .error .invalidTokenError

end JWTHandler

namespace AuthService

/-- `AuthService.get_payload_from_token` (`src/services/auth.py`, lines
282-291): decodes and rebuilds a `PayloadSchema` (dropping `iat`/`exp`),
mapping `ExpiredSignatureError` to `TokenExpiredException` and any other
`InvalidTokenError` to `InvalidTokenException`. -/
def get_payload_from_token (key : String) (tok : Token) (now : Nat) :
    Except AuthError PayloadSchema :=
  match JWTHandler.decode key tok now with
  | .ok claims =>
    .ok { sub := claims.sub, jid := claims.jid, role := claims.role,
          is_refresh := claims.is_refresh }
  | .error .expiredSignature => .error .tokenExpired
  | .error .invalidTokenError => .error .invalidToken

end AuthService

/-- A row of the `users` table (`src/models/user.py`): the fields the auth
flows read.  `is_active` defaults to `true` on creation. -/
structure User where
  id : Nat
  email : String
  role : String
  is_active : Bool
deriving DecidableEq

/-- `SignUpSchema` (`src/schemas/auth.py`): the pending-signup data stored
beside a verification code. -/
structure SignUpData where
  email : String
  first_name : String
  last_name : String
deriving DecidableEq

/-- A row of the `sessions` table (`src/models/session.py`). -/
structure Session where
  id : String
  user_id : Nat
  refresh_token : Token
  expires_at : Nat
deriving DecidableEq

/-- The JSON value stored under `verification_code:{email}` by
`AuthService.__create_verification_code`: the code, plus the signup data
when the request was a signup. -/
structure VerificationValue where
  verification_code : String
  signup_data : Option SignUpData
deriving DecidableEq

/-- One live Redis key `verification_code:{email}` with its absolute expiry
instant (`SET ... ex=expiration`). -/
structure CodeEntry where
  email : String
  value : VerificationValue
  expires_at : Nat
deriving DecidableEq

/-- One live Redis key `jid_black_list:{session_id}` with its absolute
expiry instant. -/
structure DenyEntry where
  session_id : String
  expires_at : Nat
deriving DecidableEq

/-- The ephemeral store.  `SET` overwrites, modelled by prepending (lookups
take the first entry for a key).  `failing := true` makes every
`RedisHelper` method raise, i.e. take its logged exception branch. -/
structure RedisState where
  verification_codes : List CodeEntry
  black_list : List DenyEntry
  failing : Bool
deriving DecidableEq

/-- The whole mutable state the auth flows touch: the two relational tables
and the ephemeral store.  `user_id_seq` is the autoincrement counter behind
`users.id`. -/
structure AuthState where
  users : List User
  sessions : List Session
  redis : RedisState
  user_id_seq : Nat
deriving DecidableEq

namespace RedisHelper

/-- `RedisHelper.add_verification_code` (`redis_helper.py`, lines 15-25):
`SET verification_code:{email} value ex=expiration`; `False` on a store
error. -/
def add_verification_code (r : RedisState) (email : String)
    (value : VerificationValue) (expiration : Nat) (now : Nat) :
    RedisState × Bool :=
  if r.failing then (r, false)
  else
    ({ r with verification_codes :=
        { email := email, value := value, expires_at := now + expiration } ::
          r.verification_codes },
     true)

/-- `RedisHelper.get_verification_code` (`redis_helper.py`, lines 27-35):
`GET`; `None` when the key is absent or expired, and also `None` on a store
error (the exception branch falls through to an implicit `return None`). -/
def get_verification_code (r : RedisState) (email : String) (now : Nat) :
    Option VerificationValue :=
  if r.failing then none
  else
    match r.verification_codes.find? (fun e => e.email == email) with
    | some e => if now < e.expires_at then some e.value else none
    | none => none

/-- `RedisHelper.delete_verification_code` (`redis_helper.py`, lines 37-46):
`bool(DEL key)` — `true` exactly when a live key was removed; `False` on a
store error. -/
def delete_verification_code (r : RedisState) (email : String) (now : Nat) :
    RedisState × Bool :=
  if r.failing then (r, false)
  else
    let existed :=
      match r.verification_codes.find? (fun e => e.email == email) with
      | some e => decide (now < e.expires_at)
      | none => false
    ({ r with verification_codes :=
        r.verification_codes.filter (fun e => e.email != email) },
     existed)

/-- `RedisHelper.session_in_black_list` (`redis_helper.py`, lines 48-57):
`bool(GET jid_black_list:{session_id})`; on a store error the exception is
logged and the method returns `False` — the denylist check fails open. -/
def session_in_black_list (r : RedisState) (session_id : String)
    (now : Nat) : Bool :=
  if r.failing then false
  else
    match r.black_list.find? (fun e => e.session_id == session_id) with
    | some e => decide (now < e.expires_at)
    | none => false

/-- `RedisHelper.add_session_in_black_list` (`redis_helper.py`, lines
59-68): `SET jid_black_list:{session_id} "signout" ex=expiration`; `False`
on a store error. -/
def add_session_in_black_list (r : RedisState) (session_id : String)
    (expiration : Nat) (now : Nat) : RedisState × Bool :=
  if r.failing then (r, false)
  else
    ({ r with black_list :=
        { session_id := session_id, expires_at := now + expiration } ::
          r.black_list },
     true)

end RedisHelper

namespace UserService

/-- `UserService.get_user_by_id` over `UserRepository.get_user(id=...)`
(`src/repositories/user.py`): `SELECT ... WHERE id = ... LIMIT 1`. -/
def get_user_by_id (s : AuthState) (id : Nat) : Option User :=
  s.users.find? (fun u => u.id == id)

/-- `UserService.get_user_by_email` over `UserRepository.get_user(email=...)`. -/
def get_user_by_email (s : AuthState) (email : String) : Option User :=
  s.users.find? (fun u => u.email == email)

/-- `UserService.create_user` over `UserRepository.create_user`
(`src/repositories/user.py`, lines 21-31): inserts a row with the given
role and `is_active` defaulting to `true`, returning whether the insert
committed.  `models/user.py` places no unique constraint on `email`, so the
insert itself always succeeds; the caught commit-failure branch (log and
return `None`) is not modelled. -/
def create_user (s : AuthState) (d : SignUpData) (role : String) :
    Bool × AuthState :=
  let u : User :=
    { id := s.user_id_seq, email := d.email, role := role, is_active := true }
  (true, { s with users := s.users ++ [u], user_id_seq := s.user_id_seq + 1 })

end UserService

namespace SessionService

/-- `SessionService.get_session_by_id` over `SessionRepository.get_session`
(`src/repositories/session.py`, lines 37-43). -/
def get_session_by_id (s : AuthState) (session_id : String) :
    Option Session :=
  s.sessions.find? (fun x => x.id == session_id)

/-- `SessionService.create_session` (`src/services/session.py`, lines
14-17) forwards four keyword arguments (`user_id=`, `session_id=`,
`refresh_token=`, `expires_at=`) to `SessionRepository.create_session`
(`src/repositories/session.py`, lines 17-24), whose signature is
`async def create_session(self, session: SessionSchema)`.  The call binds no
parameter and raises `TypeError: create_session() got an unexpected keyword
argument` before either body runs; no row is ever inserted.  The call is
embedded as the error it raises. -/
def create_session (s : AuthState) (_user_id : Nat) (_session_id : String)
    (_refresh_token : Token) (_expires_at : Nat) :
    Except AuthError (Option String) × AuthState :=
  (.error .typeError, s)

/-- `SessionService.update_session` over `SessionRepository.update_session`
(`src/repositories/session.py`, lines 26-35): mutates the loaded row's
`refresh_token` and `expires_at` in place and commits.  The ORM identity map
makes this the row with the session's primary key; the caught commit-failure
branch is not modelled, and the returned id is ignored by the caller. -/
def update_session (s : AuthState) (session_id : String)
    (refresh_token : Token) (expires_at : Nat) : AuthState :=
  { s with sessions := s.sessions.map (fun x =>
      if x.id == session_id then
        { x with refresh_token := refresh_token, expires_at := expires_at }
      else x) }

/-- `SessionService.delete_session` (`src/services/session.py`, lines
27-31): loads the row by id; absent → `False` with no state change;
present → `SessionRepository.delete_session` removes it and returns `True`
(the caught commit-failure branch is not modelled). -/
def delete_session (s : AuthState) (session_id : String) :
    Bool × AuthState :=
  match get_session_by_id s session_id with
  | some _ =>
    (true, { s with sessions := s.sessions.filter (fun x => x.id != session_id) })
  | none => (false, s)

end SessionService

namespace AuthService

/-- `AuthService.__generate_auth_token` (`src/services/auth.py`, lines
225-236): sets `is_refresh` in the payload dict and encodes with the
matching expiry window. -/
def generate_auth_token (key : String) (payload : PayloadSchema)
    (is_refresh : Bool) (now : Nat) : Token :=
  let expire_minutes :=
    if is_refresh then settings.refresh_token_expire_minutes
    else settings.access_token_expire_minutes
  JWTHandler.encode key { payload with is_refresh := is_refresh }
    expire_minutes now

/-- `AuthService.__generate_auth_token_pair` (`src/services/auth.py`, lines
216-223). -/
def generate_auth_token_pair (key : String) (payload : PayloadSchema)
    (now : Nat) : TokenPairSchema :=
  { access_token := generate_auth_token key payload false now
    refresh_token := generate_auth_token key payload true now }

/-- `AuthService.validate_token` (`src/services/auth.py`, lines 265-280):
decode, require the `is_refresh` flag to match, reject denylisted session
ids.  Pure read path: no state change. -/
def validate_token (key : String) (s : AuthState) (tok : Token)
    (is_refresh : Bool) (now : Nat) : Except AuthError PayloadSchema :=
  match get_payload_from_token key tok now with
  | .error e => .error e
  | .ok payload =>
    if payload.is_refresh ≠ is_refresh then .error .invalidToken
    else if RedisHelper.session_in_black_list s.redis payload.jid now then
      .error .invalidToken
    else .ok payload

/-- `AuthService.__open_auth_session` (`src/services/auth.py`, lines
188-214).  The fresh `str(uuid.uuid4())` is passed in as the oracle
argument `session_id`.  The return value of `create_session` is ignored by
the source, but the `TypeError` it raises (see
`SessionService.create_session`) propagates. -/
def open_auth_session (key : String) (s : AuthState) (email : String)
    (session_id : String) (now : Nat) :
    Except AuthError TokenPairSchema × AuthState :=
  match UserService.get_user_by_email s email with
  | none => (.error .emailNotFound, s)
  | some user =>
    if user.is_active = false then (.error .emailNotFound, s)
    else
      let payload : PayloadSchema :=
        { sub := toString user.id, jid := session_id, role := user.role,
          is_refresh := false }
      let pair := generate_auth_token_pair key payload now
      match SessionService.create_session s user.id session_id
          pair.refresh_token
          (now + settings.refresh_token_expire_minutes * 60) with
      | (.error e, s1) => (.error e, s1)
      | (.ok _, s1) => (.ok pair, s1)

/-- `AuthService.verify_code` (`src/services/auth.py`, lines 164-186):
missing/expired record or mismatched code → `VerificationCodeIncorrect`;
a record carrying signup data triggers user creation
(`UserNotCreated` on failure, record not deleted); then the session is
opened and only after that succeeds is the record deleted. -/
def verify_code (key : String) (s : AuthState) (email : String)
    (code : String) (session_id : String) (now : Nat) :
    Except AuthError TokenPairSchema × AuthState :=
  match RedisHelper.get_verification_code s.redis email now with
  | none => (.error .verificationCodeIncorrect, s)
  | some data =>
    if data.verification_code ≠ code then
      (.error .verificationCodeIncorrect, s)
    else
      let afterCreate : Except AuthError Unit × AuthState :=
        match data.signup_data with
        | some sd =>
          let (created, s1) := UserService.create_user s sd "User"
          if created then (.ok (), s1) else (.error .userNotCreated, s1)
        | none => (.ok (), s)
      match afterCreate with
      | (.error e, s1) => (.error e, s1)
      | (.ok _, s1) =>
        match open_auth_session key s1 email session_id now with
        | (.error e, s2) => (.error e, s2)
        | (.ok pair, s2) =>
          let (r3, _) := RedisHelper.delete_verification_code s2.redis email now
          (.ok pair, { s2 with redis := r3 })

/-- `AuthService.refresh_token` (`src/services/auth.py`, lines 238-263).
`int(payload.sub)` raises `ValueError` on a non-numeric subject;
`user.is_active` on the `None` returned for an unknown id raises
`AttributeError` — neither is caught.  On success the new pair is minted
with the presented token's `sub`/`jid` and the user's current role, and the
session row is rotated in place. -/
def refresh_token (key : String) (s : AuthState) (tok : Token) (now : Nat) :
    Except AuthError TokenPairSchema × AuthState :=
  match validate_token key s tok true now with
  | .error e => (.error e, s)
  | .ok payload =>
    match pyInt payload.sub with
    | none => (.error .valueError, s)
    | some uid =>
      match UserService.get_user_by_id s uid with
      | none => (.error .attributeError, s)
      | some user =>
        if user.is_active = false then (.error .invalidToken, s)
        else
          match SessionService.get_session_by_id s payload.jid with
          | none => (.error .invalidToken, s)
          | some sess =>
            if tok ≠ sess.refresh_token then (.error .invalidToken, s)
            else
              let payload2 := { payload with role := user.role }
              let pair := generate_auth_token_pair key payload2 now
              let s1 := SessionService.update_session s sess.id
                pair.refresh_token
                (now + settings.refresh_token_expire_minutes * 60)
              (.ok pair, s1)

/-- `AuthService.signout` (`src/services/auth.py`, lines 293-297): delete
the session row; only if a row was deleted, denylist the id for the
access-token TTL (in seconds) and return the store's answer; otherwise
`False` with no denylist write. -/
def signout (s : AuthState) (session_id : String) (now : Nat) :
    Bool × AuthState :=
  let (deleted, s1) := SessionService.delete_session s session_id
  if deleted then
    let (r2, ok) := RedisHelper.add_session_in_black_list s1.redis session_id
      (settings.access_token_expire_minutes * 60) now
    (ok, { s1 with redis := r2 })
  else (false, s1)

/-- `AuthService.check_email_availability` (`src/services/auth.py`, lines
49-51). -/
def check_email_availability (s : AuthState) (email : String) : Bool :=
  (UserService.get_user_by_email s email).isNone

end AuthService

/-- One invocation of a state-mutating core operation, with its
nondeterministic inputs (caller-submitted strings, the generated session id
or verification code) recorded as constructor arguments.  `requestCode` is
the store effect shared by `AuthService.signup` and `AuthService.signin`
(storing the generated code under the email for the configured window);
`validate_token`, `check_email_availability` and `get_payload_from_token`
are pure reads and need no constructor. -/
inductive Op where
  | requestCode (email code : String) (signup_data : Option SignUpData)
  | verifyCode (email code session_id : String)
  | refreshToken (tok : Token)
  | signout (session_id : String)
deriving DecidableEq

/-- The state reached after one core operation runs at instant `now`
(results and raised errors discarded, partial effects kept, as in the
source where an exception aborts the handler but not the committed store
writes). -/
def runOp (key : String) (s : AuthState) (op : Op) (now : Nat) : AuthState :=
  match op with
  | .requestCode email code sd =>
    let (r1, _) := RedisHelper.add_verification_code s.redis email
      { verification_code := code, signup_data := sd }
      settings.verification_code_expiration_minutes now
    { s with redis := r1 }
  | .verifyCode email code sid => (AuthService.verify_code key s email code sid now).2
  | .refreshToken tok => (AuthService.refresh_token key s tok now).2
  | .signout sid => (AuthService.signout s sid now).2

/-- Run a sequence of timestamped core operations. -/
def runOps (key : String) (s : AuthState) (ops : List (Op × Nat)) :
    AuthState :=
  ops.foldl (fun st p => runOp key st p.1 p.2) s

/-! Concrete fixtures for the closed evaluation theorems and witnesses:
one active user, one open session with a stored refresh token minted at
instant 0, an empty denylist. -/

def wUser : User :=
  { id := 1, email := "a@x.com", role := "User", is_active := true }

def wClaims : TokenClaims :=
  { sub := "1", jid := "s1", role := "User", is_refresh := true, iat := 0,
    exp := settings.refresh_token_expire_minutes * 60 }

/-- The session's stored refresh token. -/
def wTok : Token := .signed wClaims "k"

/-- A second well-formed, unexpired refresh token for the same session,
differing from the stored one (older issue instant). -/
def wTok2 : Token := .signed { wClaims with iat := 5 } "k"

/-- A well-formed refresh token whose subject references no stored user. -/
def wTok8 : Token := .signed { wClaims with sub := "7" } "k"

/-- The claims of an access token for the session, minted at instant 0. -/
def wAccessClaims : TokenClaims :=
  { sub := "1", jid := "s1", role := "User", is_refresh := false, iat := 0,
    exp := settings.access_token_expire_minutes * 60 }

/-- An access token for the session, minted at instant 0. -/
def wAccess : Token := .signed wAccessClaims "k"

def wSession : Session :=
  { id := "s1", user_id := 1, refresh_token := wTok,
    expires_at := settings.refresh_token_expire_minutes * 60 }

def wRedis : RedisState :=
  { verification_codes := [], black_list := [], failing := false }

def wState : AuthState :=
  { users := [wUser], sessions := [wSession], redis := wRedis,
    user_id_seq := 2 }

/-- The payload `validate_token` extracts from `wTok`. -/
def wP : PayloadSchema :=
  { sub := "1", jid := "s1", role := "User", is_refresh := true }

/-- A live verification record for the user's email (signin flow: no
pending signup data), as in the spec scenario. -/
def wRecord : CodeEntry :=
  { email := "a@x.com",
    value := { verification_code := "482913", signup_data := none },
    expires_at := 300 }

/-- `wState` with the verification record stored. -/
def sC2 : AuthState :=
  { wState with redis := { wRedis with verification_codes := [wRecord] } }

/-- `wState` with the ephemeral store raising on every call. -/
def sFail : AuthState :=
  { wState with redis := { wRedis with failing := true } }

/-- The token pair a successful refresh of `wTok` at instant 10 mints. -/
def wPair : TokenPairSchema :=
  AuthService.generate_auth_token_pair "k" { wP with role := "User" } 10

/-- The state after that refresh: the session row rotated in place. -/
def wS2 : AuthState :=
  SessionService.update_session wState "s1" wPair.refresh_token
    (10 + settings.refresh_token_expire_minutes * 60)

/-! Helper lemmas shared by the claim theorems. -/

lemma get_payload_signed {key : String} {c : TokenClaims} {now : Nat}
    (hlive : now < c.exp) :
    AuthService.get_payload_from_token key (.signed c key) now =
      .ok { sub := c.sub, jid := c.jid, role := c.role,
            is_refresh := c.is_refresh } := by
  have h : ¬ (c.exp ≤ now) := by omega
  simp [AuthService.get_payload_from_token, JWTHandler.decode, h]

lemma validate_token_ok_intro {key : String} {s : AuthState} {tok : Token}
    {ir : Bool} {now : Nat} {p : PayloadSchema}
    (hg : AuthService.get_payload_from_token key tok now = .ok p)
    (hir : p.is_refresh = ir)
    (hb : RedisHelper.session_in_black_list s.redis p.jid now = false) :
    AuthService.validate_token key s tok ir now = .ok p := by
  simp [AuthService.validate_token, hg, hir, hb]

lemma validate_token_ok_inv {key : String} {s : AuthState} {tok : Token}
    {ir : Bool} {now : Nat} {p : PayloadSchema}
    (h : AuthService.validate_token key s tok ir now = .ok p) :
    AuthService.get_payload_from_token key tok now = .ok p ∧
    p.is_refresh = ir ∧
    RedisHelper.session_in_black_list s.redis p.jid now = false := by
  unfold AuthService.validate_token at h
  cases hg : AuthService.get_payload_from_token key tok now with
  | error e => rw [hg] at h; simp at h
  | ok q =>
    rw [hg] at h
    by_cases h1 : q.is_refresh = ir
    · cases h2 : RedisHelper.session_in_black_list s.redis q.jid now with
      | true => simp [h1, h2] at h
      | false =>
        simp [h1, h2] at h
        subst h
        exact ⟨rfl, h1, h2⟩
    · simp [h1] at h

lemma validate_token_denylisted {key : String} {s : AuthState} {tok : Token}
    {ir : Bool} {now : Nat} {p : PayloadSchema}
    (hg : AuthService.get_payload_from_token key tok now = .ok p)
    (hir : p.is_refresh = ir)
    (hb : RedisHelper.session_in_black_list s.redis p.jid now = true) :
    AuthService.validate_token key s tok ir now = .error .invalidToken := by
  simp [AuthService.validate_token, hg, hir, hb]

lemma black_list_dead_mono {r : RedisState} {sid : String} {t1 t2 : Nat}
    (h12 : t1 ≤ t2)
    (h : RedisHelper.session_in_black_list r sid t1 = false) :
    RedisHelper.session_in_black_list r sid t2 = false := by
  unfold RedisHelper.session_in_black_list at h ⊢
  by_cases hf : r.failing = true
  · simp [hf]
  · simp only [hf, if_false, Bool.false_eq_true] at h ⊢
    cases hfind : r.black_list.find? (fun e => e.session_id == sid) with
    | none => simp
    | some e =>
      rw [hfind] at h
      simp at h ⊢
      omega

lemma find_session_update (l : List Session) (sid : String) (rt : Token)
    (e : Nat) :
    (l.map (fun x =>
        if x.id == sid then
          { x with refresh_token := rt, expires_at := e }
        else x)).find? (fun x => x.id == sid) =
      (l.find? (fun x => x.id == sid)).map
        (fun x => { x with refresh_token := rt, expires_at := e }) := by
  induction l with
  | nil => rfl
  | cons a t ih =>
    by_cases h : (a.id == sid) = true
    · have h2 : (({ a with refresh_token := rt, expires_at := e } : Session).id
          == sid) = true := h
      simp only [List.map_cons]
      rw [if_pos h]
      simp only [List.find?, h2, h, Option.map_some']
    · have hb : (a.id == sid) = false := by simpa using h
      simp only [List.map_cons]
      rw [if_neg h]
      simp only [List.find?, hb]
      exact ih

lemma refresh_token_ok_intro {key : String} {s : AuthState} {tok : Token}
    {now : Nat} {p : PayloadSchema} {uid : Nat} {u : User} {sess : Session}
    (hv : AuthService.validate_token key s tok true now = .ok p)
    (hsub : pyInt p.sub = some uid)
    (hu : UserService.get_user_by_id s uid = some u)
    (hact : u.is_active = true)
    (hsess : SessionService.get_session_by_id s p.jid = some sess)
    (htok : tok = sess.refresh_token) :
    AuthService.refresh_token key s tok now =
      (.ok (AuthService.generate_auth_token_pair key
              { p with role := u.role } now),
       SessionService.update_session s sess.id
         (AuthService.generate_auth_token_pair key
            { p with role := u.role } now).refresh_token
         (now + settings.refresh_token_expire_minutes * 60)) := by
  subst htok
  simp [AuthService.refresh_token, hv, hsub, hu, hact, hsess]

lemma refresh_token_mismatch {key : String} {s : AuthState} {tok : Token}
    {now : Nat} {p : PayloadSchema} {uid : Nat} {u : User} {sess : Session}
    (hv : AuthService.validate_token key s tok true now = .ok p)
    (hsub : pyInt p.sub = some uid)
    (hu : UserService.get_user_by_id s uid = some u)
    (hact : u.is_active = true)
    (hsess : SessionService.get_session_by_id s p.jid = some sess)
    (hne : tok ≠ sess.refresh_token) :
    AuthService.refresh_token key s tok now = (.error .invalidToken, s) := by
  simp [AuthService.refresh_token, hv, hsub, hu, hact, hsess, hne]

lemma refresh_token_ok_inv {key : String} {s : AuthState} {tok : Token}
    {now : Nat} {pair : TokenPairSchema} {s2 : AuthState}
    (h : AuthService.refresh_token key s tok now = (.ok pair, s2)) :
    ∃ p uid u sess,
      AuthService.validate_token key s tok true now = .ok p ∧
      pyInt p.sub = some uid ∧
      UserService.get_user_by_id s uid = some u ∧
      u.is_active = true ∧
      SessionService.get_session_by_id s p.jid = some sess ∧
      tok = sess.refresh_token ∧
      pair = AuthService.generate_auth_token_pair key
        { p with role := u.role } now ∧
      s2 = SessionService.update_session s sess.id pair.refresh_token
        (now + settings.refresh_token_expire_minutes * 60) := by
  unfold AuthService.refresh_token at h
  split at h
  · simp at h
  · rename_i p hv
    split at h
    · simp at h
    · rename_i uid hsub
      split at h
      · simp at h
      · rename_i u hu
        split at h
        · simp at h
        · rename_i hact
          split at h
          · simp at h
          · rename_i sess hsess
            split at h
            · simp at h
            · rename_i htok
              simp at h
              obtain ⟨h1, h2⟩ := h
              subst h1
              subst h2
              exact ⟨p, uid, u, sess, hv, hsub, hu, by simpa using hact,
                hsess, by simpa using htok, rfl, rfl⟩

lemma signout_none {s : AuthState} {sid : String} {now : Nat}
    (h : SessionService.get_session_by_id s sid = none) :
    AuthService.signout s sid now = (false, s) := by
  simp [AuthService.signout, SessionService.delete_session, h]

lemma signout_some {s : AuthState} {sid : String} {now : Nat} {sess : Session}
    (h : SessionService.get_session_by_id s sid = some sess)
    (hf : s.redis.failing = false) :
    AuthService.signout s sid now =
      (true,
       { s with
           sessions := s.sessions.filter (fun x => x.id != sid),
           redis := { s.redis with black_list :=
             { session_id := sid,
               expires_at :=
                 now + settings.access_token_expire_minutes * 60 } ::
               s.redis.black_list } }) := by
  simp [AuthService.signout, SessionService.delete_session, h,
    RedisHelper.add_session_in_black_list, hf]

lemma update_session_users (s : AuthState) (sid : String) (rt : Token)
    (e : Nat) : (SessionService.update_session s sid rt e).users = s.users :=
  rfl

lemma update_session_redis (s : AuthState) (sid : String) (rt : Token)
    (e : Nat) : (SessionService.update_session s sid rt e).redis = s.redis :=
  rfl

lemma refresh_token_state_redis (key : String) (s : AuthState) (tok : Token)
    (now : Nat) :
    ((AuthService.refresh_token key s tok now).2).redis = s.redis := by
  unfold AuthService.refresh_token
  repeat' split
  all_goals rfl

lemma open_auth_session_state (key : String) (s : AuthState) (email : String)
    (sid : String) (now : Nat) :
    (AuthService.open_auth_session key s email sid now).2 = s := by
  unfold AuthService.open_auth_session SessionService.create_session
  repeat' split
  all_goals first | rfl | simp_all

lemma delete_verification_code_redis (r : RedisState) (email : String)
    (now : Nat) :
    ((RedisHelper.delete_verification_code r email now).1).black_list =
      r.black_list ∧
    ((RedisHelper.delete_verification_code r email now).1).failing =
      r.failing := by
  unfold RedisHelper.delete_verification_code
  split <;> exact ⟨rfl, rfl⟩

lemma verify_code_redis_effect (key : String) (s : AuthState)
    (email code sid : String) (now : Nat) :
    ((AuthService.verify_code key s email code sid now).2).redis.black_list =
      s.redis.black_list ∧
    ((AuthService.verify_code key s email code sid now).2).redis.failing =
      s.redis.failing := by
  unfold AuthService.verify_code
  cases hg : RedisHelper.get_verification_code s.redis email now with
  | none => exact ⟨rfl, rfl⟩
  | some data =>
    dsimp only
    by_cases hc : data.verification_code ≠ code
    · rw [if_pos hc]
      exact ⟨rfl, rfl⟩
    · rw [if_neg hc]
      cases hsd : data.signup_data with
      | none =>
        rcases hopen : AuthService.open_auth_session key s email sid now with
          ⟨res, s2⟩
        have h2 : s2 = s := by
          have h3 := open_auth_session_state key s email sid now
          rw [hopen] at h3
          exact h3
        cases res with
        | error e =>
          simp [hopen, h2]
        | ok pair =>
          simp [hopen, h2,
            (delete_verification_code_redis s.redis email now).1,
            (delete_verification_code_redis s.redis email now).2]
      | some sd =>
        rcases hopen : AuthService.open_auth_session key
            { s with
                users := s.users ++
                  [{ id := s.user_id_seq, email := sd.email, role := "User",
                     is_active := true }],
                user_id_seq := s.user_id_seq + 1 } email sid now with
          ⟨res, s2⟩
        have h2 : s2 =
            { s with
                users := s.users ++
                  [{ id := s.user_id_seq, email := sd.email, role := "User",
                     is_active := true }],
                user_id_seq := s.user_id_seq + 1 } := by
          have h3 := open_auth_session_state key
            { s with
                users := s.users ++
                  [{ id := s.user_id_seq, email := sd.email, role := "User",
                     is_active := true }],
                user_id_seq := s.user_id_seq + 1 } email sid now
          rw [hopen] at h3
          exact h3
        cases res with
        | error e =>
          simp [UserService.create_user, hopen, h2]
        | ok pair =>
          simp [UserService.create_user, hopen, h2,
            (delete_verification_code_redis s.redis email now).1,
            (delete_verification_code_redis s.redis email now).2]

lemma signout_redis_effect (s : AuthState) (sid : String) (now : Nat) :
    ((AuthService.signout s sid now).2).redis.failing = s.redis.failing ∧
    (((AuthService.signout s sid now).2).redis.black_list =
        s.redis.black_list ∨
      ((AuthService.signout s sid now).2).redis.black_list =
        { session_id := sid,
          expires_at := now + settings.access_token_expire_minutes * 60 } ::
          s.redis.black_list) := by
  unfold AuthService.signout SessionService.delete_session
    RedisHelper.add_session_in_black_list
  cases hfind : SessionService.get_session_by_id s sid with
  | none => exact ⟨rfl, Or.inl rfl⟩
  | some sess =>
    dsimp only
    by_cases hf : s.redis.failing = true
    · rw [if_pos hf]
      exact ⟨rfl, Or.inl rfl⟩
    · rw [if_neg hf]
      exact ⟨rfl, Or.inr rfl⟩

lemma runOp_redis (key : String) (s : AuthState) (op : Op) (now : Nat) :
    (runOp key s op now).redis.failing = s.redis.failing ∧
    ((runOp key s op now).redis.black_list = s.redis.black_list ∨
      ∃ sid, (runOp key s op now).redis.black_list =
        { session_id := sid,
          expires_at := now + settings.access_token_expire_minutes * 60 } ::
          s.redis.black_list) := by
  cases op with
  | requestCode email code sd =>
    unfold runOp RedisHelper.add_verification_code
    dsimp only
    by_cases hf : s.redis.failing = true
    · rw [if_pos hf]
      exact ⟨rfl, Or.inl rfl⟩
    · rw [if_neg hf]
      exact ⟨rfl, Or.inl rfl⟩
  | verifyCode email code sid =>
    obtain ⟨h1, h2⟩ := verify_code_redis_effect key s email code sid now
    exact ⟨h2, Or.inl h1⟩
  | refreshToken tok =>
    have h := refresh_token_state_redis key s tok now
    exact ⟨by rw [runOp, h], Or.inl (by rw [runOp, h])⟩
  | signout sid =>
    obtain ⟨h1, h2⟩ := signout_redis_effect s sid now
    cases h2 with
    | inl h2 => exact ⟨h1, Or.inl h2⟩
    | inr h2 => exact ⟨h1, Or.inr ⟨sid, h2⟩⟩

lemma session_in_black_list_congr {r r2 : RedisState} {sid : String}
    {t : Nat} (hf : r2.failing = r.failing)
    (hbl : r2.black_list = r.black_list) :
    RedisHelper.session_in_black_list r2 sid t =
      RedisHelper.session_in_black_list r sid t := by
  unfold RedisHelper.session_in_black_list
  rw [hf, hbl]

lemma session_in_black_list_mono_cons {r r2 : RedisState} {ne : DenyEntry}
    {sid : String} {t : Nat}
    (hf : r2.failing = r.failing)
    (hbl : r2.black_list = ne :: r.black_list)
    (h : RedisHelper.session_in_black_list r sid t = true)
    (hlive : t < ne.expires_at) :
    RedisHelper.session_in_black_list r2 sid t = true := by
  unfold RedisHelper.session_in_black_list at h ⊢
  rw [hf, hbl]
  by_cases hfail : r.failing = true
  · rw [if_pos hfail] at h
    simp at h
  · rw [if_neg hfail] at h ⊢
    by_cases hid : (ne.session_id == sid) = true
    · simp only [List.find?, hid]
      exact decide_eq_true hlive
    · have hb : (ne.session_id == sid) = false := by simpa using hid
      simp only [List.find?, hb]
      exact h

lemma runOps_black_preserved (key : String) {sid : String} {t2 bound : Nat}
    (hb : t2 < bound + settings.access_token_expire_minutes * 60) :
    ∀ (ops : List (Op × Nat)) (s : AuthState),
      (∀ q ∈ ops, bound ≤ q.2) →
      RedisHelper.session_in_black_list s.redis sid t2 = true →
      RedisHelper.session_in_black_list (runOps key s ops).redis sid t2 =
        true := by
  intro ops
  induction ops with
  | nil => intro s _ h; simpa [runOps] using h
  | cons q rest ih =>
    intro s hq h
    have hq1 : bound ≤ q.2 := hq q (by simp)
    have hrest : ∀ x ∈ rest, bound ≤ x.2 := fun x hx => hq x (by simp [hx])
    have hstep :
        RedisHelper.session_in_black_list (runOp key s q.1 q.2).redis sid t2 =
          true := by
      obtain ⟨hf, hbl⟩ := runOp_redis key s q.1 q.2
      cases hbl with
      | inl heq => rw [session_in_black_list_congr hf heq]; exact h
      | inr hex =>
        obtain ⟨sid2, heq⟩ := hex
        exact session_in_black_list_mono_cons hf heq h (by simp; omega)
    have hfold : runOps key s (q :: rest) = runOps key (runOp key s q.1 q.2) rest := by
      simp [runOps]
    rw [hfold]
    exact ih (runOp key s q.1 q.2) hrest hstep

/-- C4: token codec round-trip.  For every payload and every ttl > 0,
decoding the token produced by `encode(payload, ttl)` succeeds and returns
the payload plus the computed `iat`/`exp` fields; decoding a token encoded
with ttl = 0 fails with the expiry error at any instant not before the
encoding instant, and `get_payload_from_token` maps signature-expiry
failure to `TokenExpired` and any other decode failure to `InvalidToken`. -/
theorem C4_token_codec_round_trip (key : String) (p : PayloadSchema)
    (ttl now : Nat) :
    (0 < ttl →
      JWTHandler.decode key (JWTHandler.encode key p ttl now) now =
        .ok { sub := p.sub, jid := p.jid, role := p.role,
              is_refresh := p.is_refresh, iat := now,
              exp := now + ttl * 60 }) ∧
    (∀ t2, now ≤ t2 →
      JWTHandler.decode key (JWTHandler.encode key p 0 now) t2 =
        .error .expiredSignature ∧
      AuthService.get_payload_from_token key
          (JWTHandler.encode key p 0 now) t2 = .error .tokenExpired) ∧
    (∀ tok : Token,
      (JWTHandler.decode key tok now = .error .expiredSignature →
        AuthService.get_payload_from_token key tok now =
          .error .tokenExpired) ∧
      (JWTHandler.decode key tok now = .error .invalidTokenError →
        AuthService.get_payload_from_token key tok now =
          .error .invalidToken)) := by
  refine ⟨?_, ?_, ?_⟩
  · intro h
    have hne : ¬ (now + ttl * 60 ≤ now) := by omega
    simp [JWTHandler.encode, JWTHandler.decode, hne]
  · intro t2 ht
    constructor
    · simp [JWTHandler.encode, JWTHandler.decode, ht]
    · simp [AuthService.get_payload_from_token, JWTHandler.encode,
        JWTHandler.decode, ht]
  · intro tok
    constructor <;> intro h <;>
      simp [AuthService.get_payload_from_token, h]

theorem C4_token_codec_round_trip_witness :
    JWTHandler.decode "k" (JWTHandler.encode "k"
        { sub := "1", jid := "s1", role := "User", is_refresh := false }
        5 100) 100 =
      .ok { sub := "1", jid := "s1", role := "User", is_refresh := false,
            iat := 100, exp := 400 } ∧
    JWTHandler.decode "k" (JWTHandler.encode "k"
        { sub := "1", jid := "s1", role := "User", is_refresh := false }
        0 100) 100 =
      .error .expiredSignature :=
  ⟨(C4_token_codec_round_trip "k"
      { sub := "1", jid := "s1", role := "User", is_refresh := false }
      5 100).1 (by decide),
   ((C4_token_codec_round_trip "k"
      { sub := "1", jid := "s1", role := "User", is_refresh := false }
      0 100).2.1 100 (by decide)).1⟩

/-- C7: constant-shape verification failure.  `verify_code` fails with
`VerificationCodeIncorrect` — and with the state unchanged — both when no
live record exists for the email and when a record exists but the
submitted code differs from the stored one; the two causes produce the
identical result. -/
theorem C7_constant_shape_verification_failure (key : String)
    (s : AuthState) (email code sid : String) (now : Nat) :
    (RedisHelper.get_verification_code s.redis email now = none →
      AuthService.verify_code key s email code sid now =
        (.error .verificationCodeIncorrect, s)) ∧
    (∀ data, RedisHelper.get_verification_code s.redis email now = some data →
      data.verification_code ≠ code →
      AuthService.verify_code key s email code sid now =
        (.error .verificationCodeIncorrect, s)) := by
  constructor
  · intro h
    simp [AuthService.verify_code, h]
  · intro data h hne
    simp [AuthService.verify_code, h, hne]

theorem C7_constant_shape_verification_failure_witness :
    AuthService.verify_code "k" wState "a@x.com" "482913" "sidX" 10 =
      (.error .verificationCodeIncorrect, wState) ∧
    AuthService.verify_code "k" sC2 "a@x.com" "000000" "sidX" 10 =
      (.error .verificationCodeIncorrect, sC2) :=
  ⟨(C7_constant_shape_verification_failure "k" wState "a@x.com" "482913"
      "sidX" 10).1 rfl,
   (C7_constant_shape_verification_failure "k" sC2 "a@x.com" "000000"
      "sidX" 10).2 wRecord.value rfl (by decide)⟩

/-- C9: implicit fail-open on denylist outage.  When the ephemeral store
raises, `session_in_black_list` returns `false` for every session id, so a
token that decodes correctly with the expected flag passes
`validate_token` — the denylist check can never by itself cause an
`InvalidToken` failure, and under an outage the result is independent of
the denylist's content. -/
theorem C9_denylist_fail_open (key : String) (s : AuthState) (tok : Token)
    (ir : Bool) (p : PayloadSchema) (now : Nat)
    (hfail : s.redis.failing = true) :
    (∀ sid, RedisHelper.session_in_black_list s.redis sid now = false) ∧
    (AuthService.get_payload_from_token key tok now = .ok p →
      p.is_refresh = ir →
      AuthService.validate_token key s tok ir now = .ok p) ∧
    (∀ bl, AuthService.validate_token key
        { s with redis := { s.redis with black_list := bl } } tok ir now =
      AuthService.validate_token key s tok ir now) := by
  have hfo : ∀ sid, RedisHelper.session_in_black_list s.redis sid now =
      false := by
    intro sid
    simp [RedisHelper.session_in_black_list, hfail]
  refine ⟨hfo, ?_, ?_⟩
  · intro hg hir
    exact validate_token_ok_intro hg hir (hfo p.jid)
  · intro bl
    unfold AuthService.validate_token
    cases hg : AuthService.get_payload_from_token key tok now with
    | error e => rfl
    | ok q => simp [RedisHelper.session_in_black_list, hfail]

theorem C9_denylist_fail_open_witness :
    RedisHelper.session_in_black_list sFail.redis "s1" 10 = false ∧
    AuthService.validate_token "k" sFail wTok true 10 = .ok wP :=
  ⟨(C9_denylist_fail_open "k" sFail wTok true wP 10 rfl).1 "s1",
   (C9_denylist_fail_open "k" sFail wTok true wP 10 rfl).2.1 rfl rfl⟩

/-- C6: `signout(session_id)` deletes the session row and, on successful
deletion, denylists the session id with a time-to-live equal to the
access-token TTL; if the session did not exist it returns `false` and
changes nothing. -/
theorem C6_signout_denylists_with_access_ttl (s : AuthState) (sid : String)
    (now : Nat) :
    (SessionService.get_session_by_id s sid = none →
      AuthService.signout s sid now = (false, s)) ∧
    (∀ sess, SessionService.get_session_by_id s sid = some sess →
      s.redis.failing = false →
      AuthService.signout s sid now =
        (true,
         { s with
             sessions := s.sessions.filter (fun x => x.id != sid),
             redis := { s.redis with black_list :=
               { session_id := sid,
                 expires_at :=
                   now + settings.access_token_expire_minutes * 60 } ::
                 s.redis.black_list } })) := by
  constructor
  · intro h
    exact signout_none h
  · intro sess h hf
    exact signout_some h hf

theorem C6_signout_denylists_with_access_ttl_witness :
    AuthService.signout wState "nosuch" 10 = (false, wState) ∧
    AuthService.signout wState "s1" 10 =
      (true,
       { wState with
           sessions := wState.sessions.filter (fun x => x.id != "s1"),
           redis := { wState.redis with black_list :=
             { session_id := "s1",
               expires_at :=
                 10 + settings.access_token_expire_minutes * 60 } ::
               wState.redis.black_list } }) :=
  ⟨(C6_signout_denylists_with_access_ttl wState "nosuch" 10).1 rfl,
   (C6_signout_denylists_with_access_ttl wState "s1" 10).2 wSession rfl rfl⟩

/-- C2: evaluation at the failing input.  With a live record holding the
correct code for an active user (the spec's own scenario), the first
`verify_code` call does not succeed: session opening raises the
`create_session` `TypeError` (see `SessionService.create_session`), the
call returns that error with the state unchanged, and the record is NOT
consumed — it is still retrievable afterwards, so no call ever consumes
it.  The claim says the first call succeeds and consumes the record
exactly once. -/
theorem C2_verify_code_first_call_fails_and_record_survives :
    AuthService.verify_code "k" sC2 "a@x.com" "482913" "sid1" 10 =
      (.error .typeError, sC2) ∧
    RedisHelper.get_verification_code sC2.redis "a@x.com" 10 =
      some wRecord.value := by
  constructor <;> rfl

/-- C5: evaluation at the failing input.  Opening a session for an active
user raises `TypeError` instead of persisting a `Session` row and
returning the token pair: `SessionService.create_session` forwards four
keyword arguments to `SessionRepository.create_session`, which accepts a
single `SessionSchema` parameter, so every call fails and no row is ever
inserted. -/
theorem C5_open_session_never_persists :
    AuthService.open_auth_session "k" wState "a@x.com" "sid1" 10 =
      (.error .typeError, wState) ∧
    (∀ (s : AuthState) (uid : Nat) (sid : String) (rt : Token) (exp : Nat),
      SessionService.create_session s uid sid rt exp =
        (.error .typeError, s)) :=
  ⟨rfl, fun _ _ _ _ _ => rfl⟩

/-- C10: implicit role re-derivation on refresh.  Every successful
`refresh_token` call mints an access and a refresh token that carry the
CURRENT role of the user as read from the credential store at refresh
time, while the subject id and the session id are carried over unchanged
from the presented token's payload; both tokens are issued at the refresh
instant with their configured TTLs. -/
theorem C10_role_rederivation_on_refresh (key : String) (s : AuthState)
    (tok : Token) (now : Nat) (pair : TokenPairSchema) (s2 : AuthState)
    (h : AuthService.refresh_token key s tok now = (.ok pair, s2)) :
    ∃ p uid u,
      AuthService.validate_token key s tok true now = .ok p ∧
      pyInt p.sub = some uid ∧
      UserService.get_user_by_id s uid = some u ∧
      pair.access_token = .signed
        { sub := p.sub, jid := p.jid, role := u.role, is_refresh := false,
          iat := now,
          exp := now + settings.access_token_expire_minutes * 60 } key ∧
      pair.refresh_token = .signed
        { sub := p.sub, jid := p.jid, role := u.role, is_refresh := true,
          iat := now,
          exp := now + settings.refresh_token_expire_minutes * 60 } key := by
  obtain ⟨p, uid, u, sess, hv, hsub, hu, hact, hsess, htok, hpair, hs2⟩ :=
    refresh_token_ok_inv h
  refine ⟨p, uid, u, hv, hsub, hu, ?_, ?_⟩
  · rw [hpair]
    rfl
  · rw [hpair]
    rfl

theorem C10_role_rederivation_on_refresh_witness :
    ∃ p uid u,
      AuthService.validate_token "k" wState wTok true 10 = .ok p ∧
      pyInt p.sub = some uid ∧
      UserService.get_user_by_id wState uid = some u ∧
      wPair.access_token = .signed
        { sub := p.sub, jid := p.jid, role := u.role, is_refresh := false,
          iat := 10,
          exp := 10 + settings.access_token_expire_minutes * 60 } "k" ∧
      wPair.refresh_token = .signed
        { sub := p.sub, jid := p.jid, role := u.role, is_refresh := true,
          iat := 10,
          exp := 10 + settings.refresh_token_expire_minutes * 60 } "k" :=
  C10_role_rederivation_on_refresh "k" wState wTok 10 wPair wS2 (by rfl)

/-- C8: evaluation at the failing input.  A well-formed, unexpired,
non-denylisted refresh token whose subject id references no stored user
makes `refresh_token` crash with `AttributeError` (`user.is_active` on
`None`), not fail with `InvalidToken` as the claim states. -/
theorem C8_refresh_missing_user_crashes :
    AuthService.refresh_token "k" wState wTok8 10 =
      (.error .attributeError, wState) ∧
    AuthError.attributeError ≠ AuthError.invalidToken :=
  ⟨by rfl, by decide⟩


/-- C1: refresh rotation and replay rejection.  Under the ambient checks of
`refresh_token` (the presented token decodes as an unexpired refresh
token, its session id is not denylisted, its subject resolves to an
existing active user, and a session row exists for its session id): a
presented value that is not exactly the session's stored refresh token is
rejected with `InvalidToken` and the state is unchanged — so at any
instant exactly one refresh-token value is accepted per session id; and
after a successful refresh the stored value is the newly minted refresh
token, the superseded token (whenever it differs from the new one) fails
a subsequent refresh attempt while the new one succeeds. -/
theorem C1_refresh_rotation_and_replay_rejection (key : String)
    (s : AuthState) (tok : Token) (now : Nat) (p : PayloadSchema)
    (uid : Nat) (u : User) (sess : Session)
    (hv : AuthService.validate_token key s tok true now = .ok p)
    (hsub : pyInt p.sub = some uid)
    (hu : UserService.get_user_by_id s uid = some u)
    (hact : u.is_active = true)
    (hsess : SessionService.get_session_by_id s p.jid = some sess) :
    (tok ≠ sess.refresh_token →
      AuthService.refresh_token key s tok now = (.error .invalidToken, s)) ∧
    (tok = sess.refresh_token →
      ∃ pair s2,
        AuthService.refresh_token key s tok now = (.ok pair, s2) ∧
        (SessionService.get_session_by_id s2 p.jid).map
            (fun x => x.refresh_token) = some pair.refresh_token ∧
        (∀ t2, now ≤ t2 → tok ≠ pair.refresh_token →
          AuthService.get_payload_from_token key tok t2 = .ok p →
          AuthService.refresh_token key s2 tok t2 =
            (.error .invalidToken, s2)) ∧
        (∀ t2, now ≤ t2 →
          t2 < now + settings.refresh_token_expire_minutes * 60 →
          ∃ pair2 s3,
            AuthService.refresh_token key s2 pair.refresh_token t2 =
              (.ok pair2, s3))) := by
  obtain ⟨hg, hir, hb⟩ := validate_token_ok_inv hv
  have h0 : List.find? (fun x => x.id == p.jid) s.sessions = some sess :=
    hsess
  have hsid : sess.id = p.jid := by simpa using List.find?_some h0
  constructor
  · intro hne
    exact refresh_token_mismatch hv hsub hu hact hsess hne
  · intro htok
    have hmain := refresh_token_ok_intro hv hsub hu hact hsess htok
    rw [hsid] at hmain
    have hupd : SessionService.get_session_by_id
        (SessionService.update_session s p.jid
          (AuthService.generate_auth_token_pair key
            { p with role := u.role } now).refresh_token
          (now + settings.refresh_token_expire_minutes * 60)) p.jid =
        some { sess with
          refresh_token := (AuthService.generate_auth_token_pair key
            { p with role := u.role } now).refresh_token,
          expires_at :=
            now + settings.refresh_token_expire_minutes * 60 } := by
      unfold SessionService.get_session_by_id SessionService.update_session
      dsimp only
      rw [find_session_update]
      rw [show List.find? (fun x => x.id == p.jid) s.sessions = some sess
        from hsess]
      rfl
    refine ⟨_, _, hmain, ?_, ?_, ?_⟩
    · rw [hupd]
      rfl
    · intro t2 ht2 hne hg2
      have hb2 : RedisHelper.session_in_black_list s.redis p.jid t2 =
          false := black_list_dead_mono ht2 hb
      exact refresh_token_mismatch (validate_token_ok_intro hg2 hir hb2)
        hsub hu hact hupd hne
    · intro t2 ht2 hlt
      have hb2 : RedisHelper.session_in_black_list s.redis p.jid t2 =
          false := black_list_dead_mono ht2 hb
      have hg3 : AuthService.get_payload_from_token key
          (AuthService.generate_auth_token_pair key
            { p with role := u.role } now).refresh_token t2 =
          .ok { sub := p.sub, jid := p.jid, role := u.role,
                is_refresh := true } :=
        get_payload_signed hlt
      exact ⟨_, _, refresh_token_ok_intro
        (validate_token_ok_intro hg3 rfl hb2) hsub hu hact hupd rfl⟩

theorem C1_refresh_rotation_and_replay_rejection_witness :
    AuthService.refresh_token "k" wState wTok2 10 =
      (.error .invalidToken, wState) :=
  (C1_refresh_rotation_and_replay_rejection "k" wState wTok2 10 wP 1 wUser
    wSession (by rfl) (by rfl) (by rfl) rfl (by rfl)).1 (by decide)

lemma session_in_black_list_cons_self (r : RedisState) (sid : String)
    (exp t : Nat) (hf : r.failing = false) (hlt : t < exp) :
    RedisHelper.session_in_black_list
      { r with black_list :=
          { session_id := sid, expires_at := exp } :: r.black_list }
      sid t = true := by
  simp [RedisHelper.session_in_black_list, hf, List.find?, hlt]

/-- C3: revocation is effective and permanent for a session id.  An
unexpired access token for a non-denylisted session passes
`validate_token`; after `signout` succeeds (denylist entry added with the
access-token TTL), the same access token fails `validate_token` with
`InvalidToken` at every instant before its natural expiry, and it keeps
failing after ANY sequence of core operations run at or after the signout
instant — no operation takes the session id back from revoked to
active. -/
theorem C3_revocation_effective_and_permanent (key : String)
    (s : AuthState) (c : TokenClaims) (t0 t1 tS : Nat) (sess : Session)
    (hacc : c.is_refresh = false)
    (hexp : c.exp = t0 + settings.access_token_expire_minutes * 60) :
    (t1 < c.exp →
      RedisHelper.session_in_black_list s.redis c.jid t1 = false →
      AuthService.validate_token key s (.signed c key) false t1 =
        .ok { sub := c.sub, jid := c.jid, role := c.role,
              is_refresh := c.is_refresh }) ∧
    (SessionService.get_session_by_id s c.jid = some sess →
      s.redis.failing = false →
      t0 ≤ tS →
      ∃ s2, AuthService.signout s c.jid tS = (true, s2) ∧
        ∀ (ops : List (Op × Nat)), (∀ q ∈ ops, tS ≤ q.2) →
          ∀ t2, t2 < c.exp →
            AuthService.validate_token key (runOps key s2 ops)
              (.signed c key) false t2 = .error .invalidToken) := by
  constructor
  · intro hlive hnb
    exact validate_token_ok_intro (get_payload_signed hlive) hacc hnb
  · intro hfind hnf ht0
    have hsig := @signout_some s c.jid tS sess hfind hnf
    refine ⟨_, hsig, ?_⟩
    intro ops hops t2 hlt
    have hb2 : t2 < tS + settings.access_token_expire_minutes * 60 := by
      omega
    have h1 : RedisHelper.session_in_black_list
        ({ s.redis with black_list :=
            { session_id := c.jid,
              expires_at :=
                tS + settings.access_token_expire_minutes * 60 } ::
              s.redis.black_list }) c.jid t2 = true :=
      session_in_black_list_cons_self s.redis c.jid
        (tS + settings.access_token_expire_minutes * 60) t2 hnf hb2
    have h2 := runOps_black_preserved key hb2 ops
      { s with
          sessions := s.sessions.filter (fun x => x.id != c.jid),
          redis := { s.redis with black_list :=
            { session_id := c.jid,
              expires_at :=
                tS + settings.access_token_expire_minutes * 60 } ::
              s.redis.black_list } } hops h1
    exact validate_token_denylisted (get_payload_signed hlt) hacc h2

theorem C3_revocation_effective_and_permanent_witness :
    ∃ s2, AuthService.signout wState "s1" 10 = (true, s2) ∧
      ∀ (ops : List (Op × Nat)), (∀ q ∈ ops, 10 ≤ q.2) →
        ∀ t2, t2 < wAccessClaims.exp →
          AuthService.validate_token "k" (runOps "k" s2 ops)
            (.signed wAccessClaims "k") false t2 = .error .invalidToken :=
  (C3_revocation_effective_and_permanent "k" wState wAccessClaims 0 5 10
    wSession rfl rfl).2 rfl rfl (by decide)

end MClub
